import Mathlib

/-!
Verification of the PresentMon data provider shared-memory format
(`src/rtss_Include/PMDPSharedMemory.h`) against its design specification.

The header file declares the binary layout (structs and status macros); the
producer/consumer operations (initialize, validate, appendFrame, teardown,
pollNewFrames) are described only in the specification, so they are modelled
from the spec where a claim needs them.

Machine integers are modelled as `Nat` bit patterns (`double` fields as their
64-bit patterns, `int32_t` as its 32-bit pattern): the claims checked here are
about layout and protocol, not floating-point arithmetic.
-/

/-- Windows platform constant: `MAX_PATH` is 260 on Win32. -/
def MAX_PATH : Nat := 260

/-- Source `#define PMDP_STATUS_OK 0`. -/
def PMDP_STATUS_OK : Nat := 0

/-- Source `#define PMDP_STATUS_INIT_FAILED 1`. -/
def PMDP_STATUS_INIT_FAILED : Nat := 1

/-- Source `#define PMDP_STATUS_START_STREAM_FAILED 2`. -/
def PMDP_STATUS_START_STREAM_FAILED : Nat := 2

/-- Source `#define PMDP_STATUS_GET_FRAME_DATA_FAILED 3`. -/
def PMDP_STATUS_GET_FRAME_DATA_FAILED : Nat := 3

/-- Source comment on `dwSignature`: the multi-character constant 'PMDP'
(MSVC packs the characters big-endian into the 32-bit value,
0x50 0x4D 0x44 0x50). -/
def PMDP_VALID_SIGNATURE : Nat := 0x504D4450

/-- Source comment on `dwSignature`: 0xDEAD marks the memory as deallocated
and no longer containing valid data. -/
def PMDP_TEARDOWN_SIGNATURE : Nat := 0xDEAD

/-! ## Layout description

Each C struct is described as a list of fields with a name, a byte size and a
natural alignment; offsets are computed by the standard C layout rule
(each field is placed at the next multiple of its alignment). -/

/-- Description of one C struct field: name, byte size, natural alignment. -/
structure FieldDesc where
  name : String
  size : Nat
  align : Nat
deriving DecidableEq, Repr

/-- Round `o` up to the next multiple of `a` (C field placement rule). -/
def alignUp (o a : Nat) : Nat := ((o + a - 1) / a) * a

/-- Offsets assigned to a field list starting at byte offset `o`, following
the C layout rule: each field starts at its alignment-rounded offset. -/
def layoutFrom (o : Nat) : List FieldDesc → List (String × Nat)
  | [] => []
  | f :: fs => (f.name, alignUp o f.align) :: layoutFrom (alignUp o f.align + f.size) fs

/-- End offset (unpadded size) of a field list laid out from offset `o`. -/
def layoutEnd (o : Nat) : List FieldDesc → Nat
  | [] => o
  | f :: fs => layoutEnd (alignUp o f.align + f.size) fs

/-- Field list of `PM_FRAME_DATA_V1` as declared in the source, in
declaration order. `char[MAX_PATH]` has size 260 and alignment 1; `uint32_t`
and `int32_t` have size/alignment 4; `uint64_t` and `double` have
size/alignment 8 on the target (MSVC x64) platform. -/
def pmFrameDataV1Fields : List FieldDesc :=
  [⟨"Application", MAX_PATH, 1⟩,
   ⟨"ProcessID", 4, 4⟩,
   ⟨"SwapChainAddress", 8, 8⟩,
   ⟨"Runtime", 4, 4⟩,
   ⟨"SyncInterval", 4, 4⟩,
   ⟨"PresentFlags", 4, 4⟩,
   ⟨"Dropped", 4, 4⟩,
   ⟨"TimeInSeconds", 8, 8⟩,
   ⟨"msInPresentAPI", 8, 8⟩,
   ⟨"msBetweenPresents", 8, 8⟩,
   ⟨"AllowsTearing", 4, 4⟩,
   ⟨"PresentMode", 4, 4⟩,
   ⟨"msUntilRenderComplete", 8, 8⟩,
   ⟨"msUntilDisplayed", 8, 8⟩,
   ⟨"msBetweenDisplayChange", 8, 8⟩,
   ⟨"msUntilRenderStart", 8, 8⟩,
   ⟨"qpcTime", 8, 8⟩,
   ⟨"msSinceInput", 8, 8⟩,
   ⟨"msGpuActive", 8, 8⟩,
   ⟨"msGpuVideoActive", 8, 8⟩]

/-- Field list of `PM_FRAME_DATA_V2` as declared in the source, in
declaration order. -/
def pmFrameDataV2Fields : List FieldDesc :=
  [⟨"CPUStart", 8, 8⟩,
   ⟨"Frametime", 8, 8⟩,
   ⟨"CPUBusy", 8, 8⟩,
   ⟨"CPUWait", 8, 8⟩,
   ⟨"GPULatency", 8, 8⟩,
   ⟨"GPUTime", 8, 8⟩,
   ⟨"GPUBusy", 8, 8⟩,
   ⟨"VideoBusy", 8, 8⟩,
   ⟨"GPUWait", 8, 8⟩,
   ⟨"DisplayLatency", 8, 8⟩,
   ⟨"DisplayedTime", 8, 8⟩,
   ⟨"AnimationError", 8, 8⟩,
   ⟨"ClickToPhotonLatency", 8, 8⟩]

/-- Field list of `PMDP_FRAME_DATA`: the flattened `data1` (base) sub-record
followed immediately by the `data2` (extended) sub-record, as nesting the two
structs produces on the target platform. -/
def pmdpFrameDataFields : List FieldDesc :=
  pmFrameDataV1Fields ++ pmFrameDataV2Fields

/-- Byte size of one `PMDP_FRAME_DATA` ring entry. -/
def pmdpFrameDataSize : Nat := layoutEnd 0 pmdpFrameDataFields

/-- Field list of the `PMDP_SHARED_MEMORY` header as declared in the source,
in declaration order; `DWORD` is a 32-bit unsigned integer. -/
def pmdpHeaderFields : List FieldDesc :=
  [⟨"dwSignature", 4, 4⟩,
   ⟨"dwVersion", 4, 4⟩,
   ⟨"dwFrameArrEntrySize", 4, 4⟩,
   ⟨"dwFrameArrOffset", 4, 4⟩,
   ⟨"dwFrameArrSize", 4, 4⟩,
   ⟨"dwFrameCount", 4, 4⟩,
   ⟨"dwFramePos", 4, 4⟩,
   ⟨"dwStatus", 4, 4⟩]

/-- Source `arrFrame[8192]`: compile-time ring array capacity. -/
def arrFrameCapacity : Nat := 8192

/-- Offset of the `arrFrame` ring array: the end of the header fields rounded
up to the array element's alignment (8, the strictest member alignment of
`PMDP_FRAME_DATA`). -/
def arrFrameOffset : Nat := alignUp (layoutEnd 0 pmdpHeaderFields) 8

/-! ## Byte-level memory model

A mapped region is a list of bytes (each `< 256`). Multi-byte integer fields
are stored little-endian, as on the x86-64 target. -/

/-- Little-endian encoding of `v` into `n` bytes (value taken mod 256^n). -/
def toBytesLE : Nat → Nat → List Nat
  | 0, _ => []
  | n + 1, v => v % 256 :: toBytesLE n (v / 256)

/-- Little-endian decoding of a byte list into a `Nat`. -/
def fromBytesLE : List Nat → Nat
  | [] => 0
  | b :: bs => b + 256 * fromBytesLE bs

/-- Read `len` bytes at byte offset `o` from memory `m`. -/
def extract (m : List Nat) (o len : Nat) : List Nat := (m.drop o).take len

/-! ## Frame record structures

Translated field-for-field from `PM_FRAME_DATA_V1`, `PM_FRAME_DATA_V2` and
`PMDP_FRAME_DATA` in the source. Every field is stored as its machine bit
pattern: `double` and `uint64_t` fields as a `Nat < 2^64`, `uint32_t` and
`int32_t` fields as a `Nat < 2^32`, and the `char[MAX_PATH]` buffer as a list
of 260 bytes. -/

@[ext] structure PM_FRAME_DATA_V1 where
  Application : List Nat
  ProcessID : Nat
  SwapChainAddress : Nat
  Runtime : Nat
  SyncInterval : Nat
  PresentFlags : Nat
  Dropped : Nat
  TimeInSeconds : Nat
  msInPresentAPI : Nat
  msBetweenPresents : Nat
  AllowsTearing : Nat
  PresentMode : Nat
  msUntilRenderComplete : Nat
  msUntilDisplayed : Nat
  msBetweenDisplayChange : Nat
  msUntilRenderStart : Nat
  qpcTime : Nat
  msSinceInput : Nat
  msGpuActive : Nat
  msGpuVideoActive : Nat
deriving DecidableEq, Repr

@[ext] structure PM_FRAME_DATA_V2 where
  CPUStart : Nat
  Frametime : Nat
  CPUBusy : Nat
  CPUWait : Nat
  GPULatency : Nat
  GPUTime : Nat
  GPUBusy : Nat
  VideoBusy : Nat
  GPUWait : Nat
  DisplayLatency : Nat
  DisplayedTime : Nat
  AnimationError : Nat
  ClickToPhotonLatency : Nat
deriving DecidableEq, Repr

@[ext] structure PMDP_FRAME_DATA where
  data1 : PM_FRAME_DATA_V1
  data2 : PM_FRAME_DATA_V2
deriving DecidableEq, Repr

/-- Well-formedness of a base record: the name buffer has exactly
`MAX_PATH` bytes and every integer field fits its declared width. -/
def wellFormedV1 (r : PM_FRAME_DATA_V1) : Prop :=
  r.Application.length = MAX_PATH ∧
  r.ProcessID < 2 ^ 32 ∧
  r.SwapChainAddress < 2 ^ 64 ∧
  r.Runtime < 2 ^ 32 ∧
  r.SyncInterval < 2 ^ 32 ∧
  r.PresentFlags < 2 ^ 32 ∧
  r.Dropped < 2 ^ 32 ∧
  r.TimeInSeconds < 2 ^ 64 ∧
  r.msInPresentAPI < 2 ^ 64 ∧
  r.msBetweenPresents < 2 ^ 64 ∧
  r.AllowsTearing < 2 ^ 32 ∧
  r.PresentMode < 2 ^ 32 ∧
  r.msUntilRenderComplete < 2 ^ 64 ∧
  r.msUntilDisplayed < 2 ^ 64 ∧
  r.msBetweenDisplayChange < 2 ^ 64 ∧
  r.msUntilRenderStart < 2 ^ 64 ∧
  r.qpcTime < 2 ^ 64 ∧
  r.msSinceInput < 2 ^ 64 ∧
  r.msGpuActive < 2 ^ 64 ∧
  r.msGpuVideoActive < 2 ^ 64

/-- Well-formedness of an extended record: every field fits 64 bits. -/
def wellFormedV2 (r : PM_FRAME_DATA_V2) : Prop :=
  r.CPUStart < 2 ^ 64 ∧
  r.Frametime < 2 ^ 64 ∧
  r.CPUBusy < 2 ^ 64 ∧
  r.CPUWait < 2 ^ 64 ∧
  r.GPULatency < 2 ^ 64 ∧
  r.GPUTime < 2 ^ 64 ∧
  r.GPUBusy < 2 ^ 64 ∧
  r.VideoBusy < 2 ^ 64 ∧
  r.GPUWait < 2 ^ 64 ∧
  r.DisplayLatency < 2 ^ 64 ∧
  r.DisplayedTime < 2 ^ 64 ∧
  r.AnimationError < 2 ^ 64 ∧
  r.ClickToPhotonLatency < 2 ^ 64

/-- Well-formedness of a full frame record. -/
def wellFormedFrame (r : PMDP_FRAME_DATA) : Prop :=
  wellFormedV1 r.data1 ∧ wellFormedV2 r.data2

/-- Byte image of a base record: each field's bytes in declaration order (the
layout has no padding, as `pmdpFrameDataOffsets_eq` below confirms). -/
def serializeV1 (r : PM_FRAME_DATA_V1) : List Nat :=
  r.Application ++
  toBytesLE 4 r.ProcessID ++
  toBytesLE 8 r.SwapChainAddress ++
  toBytesLE 4 r.Runtime ++
  toBytesLE 4 r.SyncInterval ++
  toBytesLE 4 r.PresentFlags ++
  toBytesLE 4 r.Dropped ++
  toBytesLE 8 r.TimeInSeconds ++
  toBytesLE 8 r.msInPresentAPI ++
  toBytesLE 8 r.msBetweenPresents ++
  toBytesLE 4 r.AllowsTearing ++
  toBytesLE 4 r.PresentMode ++
  toBytesLE 8 r.msUntilRenderComplete ++
  toBytesLE 8 r.msUntilDisplayed ++
  toBytesLE 8 r.msBetweenDisplayChange ++
  toBytesLE 8 r.msUntilRenderStart ++
  toBytesLE 8 r.qpcTime ++
  toBytesLE 8 r.msSinceInput ++
  toBytesLE 8 r.msGpuActive ++
  toBytesLE 8 r.msGpuVideoActive

/-- Byte image of an extended record. -/
def serializeV2 (r : PM_FRAME_DATA_V2) : List Nat :=
  toBytesLE 8 r.CPUStart ++
  toBytesLE 8 r.Frametime ++
  toBytesLE 8 r.CPUBusy ++
  toBytesLE 8 r.CPUWait ++
  toBytesLE 8 r.GPULatency ++
  toBytesLE 8 r.GPUTime ++
  toBytesLE 8 r.GPUBusy ++
  toBytesLE 8 r.VideoBusy ++
  toBytesLE 8 r.GPUWait ++
  toBytesLE 8 r.DisplayLatency ++
  toBytesLE 8 r.DisplayedTime ++
  toBytesLE 8 r.AnimationError ++
  toBytesLE 8 r.ClickToPhotonLatency

/-- Byte image of one ring slot: base record immediately followed by the
extended record (offset 384, as the layout computation confirms). -/
def serializeFrame (r : PMDP_FRAME_DATA) : List Nat :=
  serializeV1 r.data1 ++ serializeV2 r.data2

/-- Read a base record from a slot image through the layout offsets of
`layoutFrom 0 pmdpFrameDataFields`. -/
def deserializeV1 (m : List Nat) : PM_FRAME_DATA_V1 where
  Application := extract m 0 260
  ProcessID := fromBytesLE (extract m 260 4)
  SwapChainAddress := fromBytesLE (extract m 264 8)
  Runtime := fromBytesLE (extract m 272 4)
  SyncInterval := fromBytesLE (extract m 276 4)
  PresentFlags := fromBytesLE (extract m 280 4)
  Dropped := fromBytesLE (extract m 284 4)
  TimeInSeconds := fromBytesLE (extract m 288 8)
  msInPresentAPI := fromBytesLE (extract m 296 8)
  msBetweenPresents := fromBytesLE (extract m 304 8)
  AllowsTearing := fromBytesLE (extract m 312 4)
  PresentMode := fromBytesLE (extract m 316 4)
  msUntilRenderComplete := fromBytesLE (extract m 320 8)
  msUntilDisplayed := fromBytesLE (extract m 328 8)
  msBetweenDisplayChange := fromBytesLE (extract m 336 8)
  msUntilRenderStart := fromBytesLE (extract m 344 8)
  qpcTime := fromBytesLE (extract m 352 8)
  msSinceInput := fromBytesLE (extract m 360 8)
  msGpuActive := fromBytesLE (extract m 368 8)
  msGpuVideoActive := fromBytesLE (extract m 376 8)

/-- Read an extended record from a slot image: its offsets continue directly
at 384, the size of the base record. -/
def deserializeV2 (m : List Nat) : PM_FRAME_DATA_V2 where
  CPUStart := fromBytesLE (extract m 384 8)
  Frametime := fromBytesLE (extract m 392 8)
  CPUBusy := fromBytesLE (extract m 400 8)
  CPUWait := fromBytesLE (extract m 408 8)
  GPULatency := fromBytesLE (extract m 416 8)
  GPUTime := fromBytesLE (extract m 424 8)
  GPUBusy := fromBytesLE (extract m 432 8)
  VideoBusy := fromBytesLE (extract m 440 8)
  GPUWait := fromBytesLE (extract m 448 8)
  DisplayLatency := fromBytesLE (extract m 456 8)
  DisplayedTime := fromBytesLE (extract m 464 8)
  AnimationError := fromBytesLE (extract m 472 8)
  ClickToPhotonLatency := fromBytesLE (extract m 480 8)

/-- Read a full frame record from a slot image. -/
def deserializeFrame (m : List Nat) : PMDP_FRAME_DATA :=
  ⟨deserializeV1 m, deserializeV2 m⟩

/-! ## Region header and lifecycle protocol

The `PMDP_SHARED_MEMORY` header fields, with the producer/consumer operations
that the specification describes (the repository ships only the layout
header, so the operations are modelled from the spec's contracts). -/

/-- Header block of `PMDP_SHARED_MEMORY`, one component per `DWORD` field in
source declaration order. -/
@[ext] structure RegionHeader where
  dwSignature : Nat
  dwVersion : Nat
  dwFrameArrEntrySize : Nat
  dwFrameArrOffset : Nat
  dwFrameArrSize : Nat
  dwFrameCount : Nat
  dwFramePos : Nat
  dwStatus : Nat
deriving DecidableEq, Repr

/-- Version encoding from the source comment on `dwVersion`:
`(major<<16) + minor`. -/
def encodeVersion (major minor : Nat) : Nat := major * 2 ^ 16 + minor

/-- Major component of a `dwVersion` value. -/
def majorOf (v : Nat) : Nat := v / 2 ^ 16

/-- Minor component of a `dwVersion` value. -/
def minorOf (v : Nat) : Nat := v % 2 ^ 16

/-- Interpretation classes of the signature field, from the source comment on
`dwSignature`: 'PMDP' means initialized with valid data, 0xDEAD means marked
for deallocation, anything else means not initialized. -/
inductive SigClass where
  | valid
  | tornDown
  | notReady
deriving DecidableEq, Repr

/-- Classification of a signature value per the source comment. -/
def classifySignature (s : Nat) : SigClass :=
  if s = PMDP_VALID_SIGNATURE then .valid
  else if s = PMDP_TEARDOWN_SIGNATURE then .tornDown
  else .notReady

/-- Outcome of consumer-side header validation. -/
inductive ValidateResult where
  | ok
  | incompatibleMajorVersion
  | notReady
  | tornDown
deriving DecidableEq, Repr

/-- Modelled from the spec: `validate(header)`, consumer-side. The signature
is checked first (teardown magic is terminal, any other non-magic value is
"not ready"); only then is the version gate applied: a reader compiled
against `expectedMajor` rejects a differing major version and tolerates any
minor difference. -/
def validate (expectedMajor : Nat) (h : RegionHeader) : ValidateResult :=
  if h.dwSignature = PMDP_TEARDOWN_SIGNATURE then .tornDown
  else if h.dwSignature ≠ PMDP_VALID_SIGNATURE then .notReady
  else if majorOf h.dwVersion ≠ expectedMajor then .incompatibleMajorVersion
  else .ok

/-- Modelled from the spec: `teardown(header)`, producer-only. Sets the
signature to the teardown magic as its last write; no other field changes. -/
def teardown (h : RegionHeader) : RegionHeader :=
  { h with dwSignature := PMDP_TEARDOWN_SIGNATURE }

/-- Modelled from the spec: `initialize(capacity, entrySize)`. Writes the
layout descriptor fields (entry size, array offset, array byte size,
capacity), a zero write cursor, OK status, the current version (major 1) and
finally the valid signature. -/
def initHeader (capacity entrySize : Nat) : RegionHeader where
  dwSignature := PMDP_VALID_SIGNATURE
  dwVersion := encodeVersion 1 0
  dwFrameArrEntrySize := entrySize
  dwFrameArrOffset := arrFrameOffset
  dwFrameArrSize := capacity * entrySize
  dwFrameCount := capacity
  dwFramePos := 0
  dwStatus := PMDP_STATUS_OK

/-- Modelled from the spec: readers treat the ring capacity as dynamic,
reading it from the header's `dwFrameCount` field instead of assuming the
compile-time constant. -/
def readerCapacity (h : RegionHeader) : Nat := h.dwFrameCount

/-! ## Ring store state and the producer's write path -/

/-- Frame record whose fields are all zero (a freshly zeroed slot). -/
def zeroFrame : PMDP_FRAME_DATA where
  data1 :=
    { Application := List.replicate MAX_PATH 0
      ProcessID := 0, SwapChainAddress := 0, Runtime := 0, SyncInterval := 0
      PresentFlags := 0, Dropped := 0, TimeInSeconds := 0, msInPresentAPI := 0
      msBetweenPresents := 0, AllowsTearing := 0, PresentMode := 0
      msUntilRenderComplete := 0, msUntilDisplayed := 0
      msBetweenDisplayChange := 0, msUntilRenderStart := 0, qpcTime := 0
      msSinceInput := 0, msGpuActive := 0, msGpuVideoActive := 0 }
  data2 :=
    { CPUStart := 0, Frametime := 0, CPUBusy := 0, CPUWait := 0
      GPULatency := 0, GPUTime := 0, GPUBusy := 0, VideoBusy := 0
      GPUWait := 0, DisplayLatency := 0, DisplayedTime := 0
      AnimationError := 0, ClickToPhotonLatency := 0 }

/-- Producer-side state of the shared region: the header, the ring slots, and
the monotonically increasing count of frames ever written. The spec keeps
`totalFrameCount` distinct from the header's capacity field `dwFrameCount`
and the write cursor `dwFramePos`. -/
@[ext] structure RingState where
  header : RegionHeader
  slots : List PMDP_FRAME_DATA
  totalFrameCount : Nat
deriving DecidableEq, Repr

/-- Modelled from the spec: first step of `appendFrame(record)` — write the
full record into the slot at the current write cursor. -/
def writeSlot (s : RingState) (r : PMDP_FRAME_DATA) : RingState :=
  { s with slots := s.slots.set s.header.dwFramePos r }

/-- Modelled from the spec: second step of `appendFrame` — increment the
total-frame counter. -/
def bumpTotal (s : RingState) : RingState :=
  { s with totalFrameCount := s.totalFrameCount + 1 }

/-- Modelled from the spec: third step of `appendFrame` — advance the write
cursor by one modulo the capacity. -/
def advanceCursor (s : RingState) : RingState :=
  { s with header :=
      { s.header with
          dwFramePos := (s.header.dwFramePos + 1) % s.header.dwFrameCount } }

/-- Modelled from the spec: `appendFrame(record)` — slot write, then counter
increment, then cursor advance, in exactly that order. -/
def appendFrame (s : RingState) (r : PMDP_FRAME_DATA) : RingState :=
  advanceCursor (bumpTotal (writeSlot s r))

/-- Intermediate states of one `appendFrame`, in execution order: after the
slot write, after the counter increment, after the cursor advance. -/
def appendTrace (s : RingState) (r : PMDP_FRAME_DATA) : List RingState :=
  [writeSlot s r, bumpTotal (writeSlot s r), appendFrame s r]

/-- Modelled from the spec: a freshly initialized region — header written by
`initHeader`, all `capacity` slots zeroed, zero frames written so far. -/
def initRegion (capacity entrySize : Nat) : RingState where
  header := initHeader capacity entrySize
  slots := List.replicate capacity zeroFrame
  totalFrameCount := 0

/-! ## Application-name buffer -/

/-- Read the C string stored in the fixed `char[MAX_PATH]` buffer: the bytes
up to (excluding) the first NUL terminator. -/
def decodeAppName (buf : List Nat) : List Nat := buf.takeWhile (fun b => b != 0)

/-! ## Supporting lemmas -/

@[simp] theorem length_toBytesLE (n v : Nat) : (toBytesLE n v).length = n := by
  induction n generalizing v with
  | zero => rfl
  | succ k ih => simp [toBytesLE, ih]

theorem fromBytesLE_toBytesLE (n v : Nat) (h : v < 2 ^ (8 * n)) :
    fromBytesLE (toBytesLE n v) = v := by
  induction n generalizing v with
  | zero =>
    simp [toBytesLE, fromBytesLE]
    omega
  | succ k ih =>
    have hlt : v / 256 < 2 ^ (8 * k) := by
      rw [Nat.div_lt_iff_lt_mul (by norm_num : 0 < 256)]
      calc v < 2 ^ (8 * (k + 1)) := h
        _ = 2 ^ (8 * k) * 256 := by ring
    simp [toBytesLE, fromBytesLE, ih _ hlt]
    omega

theorem fromBytes_toBytes4 (v : Nat) (h : v < 2 ^ 32) :
    fromBytesLE (toBytesLE 4 v) = v :=
  fromBytesLE_toBytesLE 4 v (by norm_num at h ⊢; omega)

theorem fromBytes_toBytes8 (v : Nat) (h : v < 2 ^ 64) :
    fromBytesLE (toBytesLE 8 v) = v :=
  fromBytesLE_toBytesLE 8 v (by norm_num at h ⊢; omega)

theorem extract_append_right (l rest : List Nat) (o len : Nat)
    (h : l.length ≤ o) :
    extract (l ++ rest) o len = extract rest (o - l.length) len := by
  simp [extract, List.drop_append_eq_append_drop, List.drop_eq_nil_of_le h]

theorem extract_append_left (l rest : List Nat) (o len : Nat)
    (h : o + len ≤ l.length) :
    extract (l ++ rest) o len = extract l o len := by
  unfold extract
  rw [List.drop_append_eq_append_drop, List.take_append_eq_append_take]
  have hd : (l.drop o).length = l.length - o := by simp
  rw [hd]
  have hz : len - (l.length - o) = 0 := by omega
  rw [hz, List.take_zero, List.append_nil]

theorem extract_all (l : List Nat) (len : Nat) (h : l.length ≤ len) :
    extract l 0 len = l := by
  simp [extract, List.take_of_length_le h]

theorem length_serializeV1 (r : PM_FRAME_DATA_V1)
    (hApp : r.Application.length = MAX_PATH) :
    (serializeV1 r).length = 384 := by
  simp [serializeV1, hApp, MAX_PATH]

set_option maxHeartbeats 1600000 in
theorem deserializeV1_serializeV1 (r : PM_FRAME_DATA_V1) (rest : List Nat)
    (h : wellFormedV1 r) :
    deserializeV1 (serializeV1 r ++ rest) = r := by
  obtain ⟨hApp, h1, h2, h3, h4, h5, h6, h7, h8, h9, h10, h11, h12, h13, h14,
    h15, h16, h17, h18, h19⟩ := h
  ext <;>
  simp [deserializeV1, serializeV1, List.append_assoc,
    extract_append_right, extract_append_left, extract_all, hApp, MAX_PATH] <;>
  simp only [fromBytes_toBytes4, fromBytes_toBytes8,
    h1, h2, h3, h4, h5, h6, h7, h8, h9, h10, h11, h12, h13, h14, h15, h16,
    h17, h18, h19]

set_option maxHeartbeats 800000 in
theorem deserializeV2_at384 (r2 : PM_FRAME_DATA_V2) (pre : List Nat)
    (hpre : pre.length = 384) (h : wellFormedV2 r2) :
    deserializeV2 (pre ++ serializeV2 r2) = r2 := by
  obtain ⟨g1, g2, g3, g4, g5, g6, g7, g8, g9, g10, g11, g12, g13⟩ := h
  ext <;>
  simp [deserializeV2, serializeV2, List.append_assoc,
    extract_append_right, extract_append_left, extract_all, hpre] <;>
  simp only [fromBytes_toBytes8,
    g1, g2, g3, g4, g5, g6, g7, g8, g9, g10, g11, g12, g13]

/-- Round-trip for one full frame slot: the extended record's offsets start
exactly at the byte size of the base record. -/
theorem serializeFrame_roundTrip (r : PMDP_FRAME_DATA) (h : wellFormedFrame r) :
    deserializeFrame (serializeFrame r) = r := by
  obtain ⟨h1, h2⟩ := h
  have e1 : deserializeV1 (serializeV1 r.data1 ++ serializeV2 r.data2) = r.data1 :=
    deserializeV1_serializeV1 r.data1 _ h1
  have e2 : deserializeV2 (serializeV1 r.data1 ++ serializeV2 r.data2) = r.data2 :=
    deserializeV2_at384 r.data2 _ (length_serializeV1 r.data1 h1.1) h2
  ext1
  · exact e1
  · exact e2

theorem appendFrame_step (s : RingState) (r : PMDP_FRAME_DATA) :
    (appendFrame s r).totalFrameCount = s.totalFrameCount + 1 ∧
    (appendFrame s r).header.dwFrameCount = s.header.dwFrameCount ∧
    (appendFrame s r).header.dwFramePos =
      (s.header.dwFramePos + 1) % s.header.dwFrameCount :=
  ⟨rfl, rfl, rfl⟩

theorem foldl_appendFrame_invariant (rs : List PMDP_FRAME_DATA)
    (s : RingState) (n : Nat)
    (hpos : s.header.dwFramePos = n % s.header.dwFrameCount)
    (htot : s.totalFrameCount = n) :
    (rs.foldl appendFrame s).totalFrameCount = n + rs.length ∧
    (rs.foldl appendFrame s).header.dwFrameCount = s.header.dwFrameCount ∧
    (rs.foldl appendFrame s).header.dwFramePos =
      (n + rs.length) % s.header.dwFrameCount := by
  induction rs generalizing s n with
  | nil =>
    refine ⟨?_, rfl, ?_⟩ <;> simp [htot, hpos]
  | cons r rs ih =>
    simp only [List.foldl_cons, List.length_cons]
    obtain ⟨e1, e2, e3⟩ := appendFrame_step s r
    have hpos' : (appendFrame s r).header.dwFramePos =
        (n + 1) % (appendFrame s r).header.dwFrameCount := by
      rw [e3, e2, hpos, Nat.mod_add_mod]
    have htot' : (appendFrame s r).totalFrameCount = n + 1 := by rw [e1, htot]
    obtain ⟨a, b, c⟩ := ih (appendFrame s r) (n + 1) hpos' htot'
    refine ⟨?_, ?_, ?_⟩
    · rw [a]; omega
    · rw [b, e2]
    · rw [c, e2]
      congr 1
      omega

theorem length_takeWhile_lt_of_zero_mem (buf : List Nat) (h : 0 ∈ buf) :
    (buf.takeWhile (fun b => b != 0)).length < buf.length := by
  induction buf with
  | nil => simp at h
  | cons b bs ih =>
    by_cases hb : b = 0
    · subst hb
      simp [List.takeWhile_cons]
    · have hmem : 0 ∈ bs := by
        rcases List.mem_cons.mp h with h0 | h0
        · omega
        · exact h0
      simp only [List.takeWhile_cons]
      have : (b != 0) = true := by simpa using hb
      rw [this]
      simpa using ih hmem

/-! ## Claim theorems -/

set_option maxRecDepth 10000 in
/-- C1: the shared region's version-1 layout consists, in declaration order,
of exactly eight fixed-width naturally-aligned 32-bit fields — signature,
version, entry size, entry-array offset, entry-array size, frameCount,
framePos, status — at offsets 0,4,...,28, followed directly by the ring
array of fixed-size frame records at offset 32. -/
theorem pmdp_header_layout :
    layoutFrom 0 pmdpHeaderFields =
      [("dwSignature", 0), ("dwVersion", 4), ("dwFrameArrEntrySize", 8),
       ("dwFrameArrOffset", 12), ("dwFrameArrSize", 16), ("dwFrameCount", 20),
       ("dwFramePos", 24), ("dwStatus", 28)] ∧
    pmdpHeaderFields.map FieldDesc.size = List.replicate 8 4 ∧
    layoutEnd 0 pmdpHeaderFields = 32 ∧
    arrFrameOffset = 32 ∧
    pmdpFrameDataSize = 488 := by
  refine ⟨by decide, by decide, by decide, by decide, by decide⟩

/-- C5: the status lifecycle codes are exactly OK=0, INIT_FAILED=1,
START_FAILED=2, READ_FAILED=3, four pairwise distinct values; the torn-down
and not-yet-initialized states are carried by the signature field (teardown
rewrites only the signature, and signature classification is what reports
them), not by the status field. -/
theorem pmdp_status_codes :
    PMDP_STATUS_OK = 0 ∧ PMDP_STATUS_INIT_FAILED = 1 ∧
    PMDP_STATUS_START_STREAM_FAILED = 2 ∧
    PMDP_STATUS_GET_FRAME_DATA_FAILED = 3 ∧
    [PMDP_STATUS_OK, PMDP_STATUS_INIT_FAILED, PMDP_STATUS_START_STREAM_FAILED,
      PMDP_STATUS_GET_FRAME_DATA_FAILED].Nodup ∧
    (∀ h : RegionHeader, (teardown h).dwStatus = h.dwStatus ∧
      classifySignature (teardown h).dwSignature = SigClass.tornDown) ∧
    classifySignature 0 = SigClass.notReady := by
  refine ⟨rfl, rfl, rfl, rfl, by decide, ?_, by decide⟩
  intro h
  refine ⟨rfl, ?_⟩
  simp [teardown, classifySignature, PMDP_VALID_SIGNATURE,
    PMDP_TEARDOWN_SIGNATURE]

/-- C7: the ring array's capacity is the compile-time constant 8192 in the
reference layout, while a reader obtains the capacity dynamically from the
header's `dwFrameCount` field — for a region initialized with any other
capacity the reader follows the header, not the constant. -/
theorem pmdp_capacity_constant_but_dynamic :
    arrFrameCapacity = 8192 ∧
    (∀ capacity entrySize,
      readerCapacity (initHeader capacity entrySize) = capacity) ∧
    readerCapacity (initHeader 1024 pmdpFrameDataSize) ≠ arrFrameCapacity := by
  refine ⟨rfl, fun _ _ => rfl, by decide⟩

/-- C9: once teardown has set the signature to the teardown magic, every
subsequent validate call returns TornDown and never OK, whatever the other
header fields hold. -/
theorem pmdp_teardown_terminal :
    ∀ (expectedMajor : Nat) (h : RegionHeader),
      validate expectedMajor (teardown h) = ValidateResult.tornDown ∧
      validate expectedMajor (teardown h) ≠ ValidateResult.ok := by
  intro M h
  constructor
  · simp [validate, teardown]
  · simp [validate, teardown]

/-- C3: the 32-bit signature has exactly three interpretation classes —
the 'PMDP' magic means valid, 0xDEAD means torn down, anything else means
not ready — and validation depends on no header field other than the
signature until the signature equals the valid magic (validation can succeed
only with the valid magic, and for any non-magic signature its result is the
same whatever the remaining fields hold). -/
theorem pmdp_signature_classes :
    classifySignature PMDP_VALID_SIGNATURE = SigClass.valid ∧
    classifySignature PMDP_TEARDOWN_SIGNATURE = SigClass.tornDown ∧
    (∀ s, s ≠ PMDP_VALID_SIGNATURE → s ≠ PMDP_TEARDOWN_SIGNATURE →
      classifySignature s = SigClass.notReady) ∧
    (∀ expectedMajor (h : RegionHeader),
      validate expectedMajor h = ValidateResult.ok →
      h.dwSignature = PMDP_VALID_SIGNATURE) ∧
    (∀ expectedMajor (h h' : RegionHeader),
      h.dwSignature = h'.dwSignature →
      h.dwSignature ≠ PMDP_VALID_SIGNATURE →
      validate expectedMajor h = validate expectedMajor h') := by
  refine ⟨by decide, by decide, ?_, ?_, ?_⟩
  · intro s h1 h2
    simp [classifySignature, h1, h2]
  · intro M h hok
    by_contra hne
    simp only [validate] at hok
    rcases Decidable.em (h.dwSignature = PMDP_TEARDOWN_SIGNATURE) with ht | ht
    · simp [ht] at hok
    · simp [ht, hne] at hok
  · intro M h h' hsig hne
    simp only [validate, hsig]
    rcases Decidable.em (h'.dwSignature = PMDP_TEARDOWN_SIGNATURE) with ht | ht
    · simp [ht]
    · simp [ht, hsig ▸ hne]

/-- Witness for C3 at concrete inputs: signature 0 classifies as not ready; a
freshly initialized header that validates OK indeed carries the valid magic;
and two headers sharing the torn-down signature validate identically even
though their status fields differ. -/
theorem pmdp_signature_classes_witness :
    classifySignature 0 = SigClass.notReady ∧
    (initHeader 8192 488).dwSignature = PMDP_VALID_SIGNATURE ∧
    validate 1 (teardown (initHeader 8192 488)) =
      validate 1 { teardown (initHeader 8192 488) with dwStatus := 3 } :=
  ⟨pmdp_signature_classes.2.2.1 0 (by decide) (by decide),
   pmdp_signature_classes.2.2.2.1 1 (initHeader 8192 488) (by decide),
   pmdp_signature_classes.2.2.2.2 1 _ _ rfl (by decide)⟩

/-- C4: the version field encodes (major<<16)+minor; a reader expecting
major M rejects a valid-signature header exactly when the header's major
differs from M (IncompatibleMajorVersion), and accepts whatever the minor
version is. -/
theorem pmdp_version_gate :
    (∀ major minor, minor < 2 ^ 16 →
      majorOf (encodeVersion major minor) = major ∧
      minorOf (encodeVersion major minor) = minor) ∧
    (∀ expectedMajor (h : RegionHeader),
      h.dwSignature = PMDP_VALID_SIGNATURE →
      (majorOf h.dwVersion ≠ expectedMajor →
        validate expectedMajor h = ValidateResult.incompatibleMajorVersion) ∧
      (majorOf h.dwVersion = expectedMajor →
        validate expectedMajor h = ValidateResult.ok)) := by
  constructor
  · intro major minor hlt
    constructor
    · simp only [majorOf, encodeVersion]
      omega
    · simp only [minorOf, encodeVersion]
      omega
  · intro M h hsig
    have hnt : h.dwSignature ≠ PMDP_TEARDOWN_SIGNATURE := by
      rw [hsig]; decide
    constructor
    · intro hmaj
      simp [validate, hsig, hnt, hmaj, PMDP_VALID_SIGNATURE,
        PMDP_TEARDOWN_SIGNATURE]
    · intro hmaj
      simp [validate, hsig, hnt, hmaj, PMDP_VALID_SIGNATURE,
        PMDP_TEARDOWN_SIGNATURE]

/-- Witness for C4 at concrete inputs: (major 1, minor 5) decodes back; a
reader expecting major 1 rejects a major-2 header and accepts a major-1
header with a different minor. -/
theorem pmdp_version_gate_witness :
    (majorOf (encodeVersion 1 5) = 1 ∧ minorOf (encodeVersion 1 5) = 5) ∧
    validate 1 { initHeader 8192 488 with dwVersion := encodeVersion 2 0 } =
      ValidateResult.incompatibleMajorVersion ∧
    validate 1 { initHeader 8192 488 with dwVersion := encodeVersion 1 7 } =
      ValidateResult.ok :=
  ⟨pmdp_version_gate.1 1 5 (by decide),
   (pmdp_version_gate.2 1 _ (by decide)).1 (by decide),
   (pmdp_version_gate.2 1 _ (by decide)).2 (by decide)⟩

/-- C6: the sixth 32-bit header field is `dwFrameCount`; in the modelled
producer it holds the ring capacity, which stays fixed while the
monotonically increasing total of frames ever written grows with every
append — the two counts are distinct quantities. -/
theorem pmdp_frameCount_is_capacity :
    pmdpHeaderFields[5]? = some ⟨"dwFrameCount", 4, 4⟩ ∧
    (∀ capacity entrySize,
      (initRegion capacity entrySize).header.dwFrameCount = capacity ∧
      (initRegion capacity entrySize).totalFrameCount = 0) ∧
    (∀ capacity entrySize (rs : List PMDP_FRAME_DATA),
      (rs.foldl appendFrame (initRegion capacity entrySize)).header.dwFrameCount
        = capacity ∧
      (rs.foldl appendFrame (initRegion capacity entrySize)).totalFrameCount
        = rs.length) := by
  refine ⟨by decide, fun c e => ⟨rfl, rfl⟩, ?_⟩
  intro c e rs
  obtain ⟨a, b, _⟩ := foldl_appendFrame_invariant rs (initRegion c e) 0
    (by simp [initRegion, initHeader]) rfl
  exact ⟨b, by simpa using a⟩

/-- C8: starting from a freshly initialized region, after appending k frames
the total-frame counter equals k and the write cursor equals k mod capacity;
and each single append writes the full record into the slot at the current
cursor, then increments the total counter (slots and cursor untouched at that
point), then advances the cursor by one modulo capacity, in that order. -/
theorem pmdp_append_discipline :
    (∀ capacity entrySize (rs : List PMDP_FRAME_DATA),
      (rs.foldl appendFrame (initRegion capacity entrySize)).totalFrameCount
        = rs.length ∧
      (rs.foldl appendFrame (initRegion capacity entrySize)).header.dwFramePos
        = rs.length % capacity) ∧
    (∀ (s : RingState) (r : PMDP_FRAME_DATA),
      (writeSlot s r).slots = s.slots.set s.header.dwFramePos r ∧
      (writeSlot s r).header = s.header ∧
      (writeSlot s r).totalFrameCount = s.totalFrameCount ∧
      (bumpTotal (writeSlot s r)).slots = (writeSlot s r).slots ∧
      (bumpTotal (writeSlot s r)).header = s.header ∧
      (bumpTotal (writeSlot s r)).totalFrameCount = s.totalFrameCount + 1 ∧
      (appendFrame s r).slots = (writeSlot s r).slots ∧
      (appendFrame s r).totalFrameCount = s.totalFrameCount + 1 ∧
      (appendFrame s r).header.dwFramePos =
        (s.header.dwFramePos + 1) % s.header.dwFrameCount ∧
      (appendFrame s r).header.dwFrameCount = s.header.dwFrameCount) := by
  constructor
  · intro c e rs
    obtain ⟨a, b, d⟩ := foldl_appendFrame_invariant rs (initRegion c e) 0
      (by simp [initRegion, initHeader]) rfl
    refine ⟨by simpa using a, ?_⟩
    have hcap : (initRegion c e).header.dwFrameCount = c := rfl
    rw [d, hcap]
    simp
  · intro s r
    exact ⟨rfl, rfl, rfl, rfl, rfl, rfl, rfl, rfl, rfl, rfl⟩

set_option maxRecDepth 10000 in
/-- C2: the frame-record layout places the base sub-record's fields in
declaration order at offsets 0..376 and the extended sub-record's fields
immediately after at offsets 384..480 with no padding at the boundary, and
writing any well-formed set of field values into a slot and reading them
back through those offsets reproduces the values exactly. -/
theorem pmdp_frame_roundTrip :
    layoutFrom 0 pmdpFrameDataFields =
      [("Application", 0), ("ProcessID", 260), ("SwapChainAddress", 264),
       ("Runtime", 272), ("SyncInterval", 276), ("PresentFlags", 280),
       ("Dropped", 284), ("TimeInSeconds", 288), ("msInPresentAPI", 296),
       ("msBetweenPresents", 304), ("AllowsTearing", 312),
       ("PresentMode", 316), ("msUntilRenderComplete", 320),
       ("msUntilDisplayed", 328), ("msBetweenDisplayChange", 336),
       ("msUntilRenderStart", 344), ("qpcTime", 352), ("msSinceInput", 360),
       ("msGpuActive", 368), ("msGpuVideoActive", 376), ("CPUStart", 384),
       ("Frametime", 392), ("CPUBusy", 400), ("CPUWait", 408),
       ("GPULatency", 416), ("GPUTime", 424), ("GPUBusy", 432),
       ("VideoBusy", 440), ("GPUWait", 448), ("DisplayLatency", 456),
       ("DisplayedTime", 464), ("AnimationError", 472),
       ("ClickToPhotonLatency", 480)] ∧
    layoutEnd 0 pmFrameDataV1Fields = 384 ∧
    (∀ r : PMDP_FRAME_DATA, wellFormedFrame r →
      deserializeFrame (serializeFrame r) = r) := by
  exact ⟨by decide, by decide, serializeFrame_roundTrip⟩

set_option maxRecDepth 10000 in
/-- Witness for C2: the round trip applied to the concrete all-zero record. -/
theorem pmdp_frame_roundTrip_witness :
    deserializeFrame (serializeFrame zeroFrame) = zeroFrame :=
  pmdp_frame_roundTrip.2.2 zeroFrame
    (by unfold wellFormedFrame wellFormedV1 wellFormedV2; decide)

set_option maxRecDepth 10000 in
/-- C10: every frame record begins with a fixed MAX_PATH-character inline
name buffer, so a well-formed slot image always has the same byte size (488)
regardless of the stored name, and a name longer than MAX_PATH-1 characters
cannot be read back from any NUL-terminated buffer of that size — it can only
be stored truncated. -/
theorem pmdp_name_buffer_fixed :
    pmFrameDataV1Fields.head? = some ⟨"Application", MAX_PATH, 1⟩ ∧
    (∀ r : PMDP_FRAME_DATA, wellFormedFrame r →
      (serializeFrame r).length = pmdpFrameDataSize) ∧
    (∀ buf : List Nat, buf.length = MAX_PATH → 0 ∈ buf →
      (decodeAppName buf).length ≤ MAX_PATH - 1) := by
  refine ⟨by decide, ?_, ?_⟩
  · intro r hr
    have h1 : (serializeV1 r.data1).length = 384 :=
      length_serializeV1 r.data1 hr.1.1
    have h2 : (serializeV2 r.data2).length = 104 := by
      simp [serializeV2]
    have : pmdpFrameDataSize = 488 := by decide
    simp [serializeFrame, h1, h2, this]
  · intro buf hlen hmem
    have := length_takeWhile_lt_of_zero_mem buf hmem
    simp only [decodeAppName]
    omega

set_option maxRecDepth 10000 in
/-- Witness for C10: the all-zero record serializes to exactly one entry
size, and an all-zero name buffer decodes to a name within the limit. -/
theorem pmdp_name_buffer_fixed_witness :
    (serializeFrame zeroFrame).length = pmdpFrameDataSize ∧
    (decodeAppName (List.replicate MAX_PATH 0)).length ≤ MAX_PATH - 1 :=
  ⟨pmdp_name_buffer_fixed.2.1 zeroFrame
    (by unfold wellFormedFrame wellFormedV1 wellFormedV2; decide),
   pmdp_name_buffer_fixed.2.2 (List.replicate MAX_PATH 0) (by decide)
    (by decide)⟩
